import Mathlib

set_option autoImplicit false

/-!
Shallow embedding of the address/coordinate resolution pipeline of the
skolverket-data-extractor repository (src/extract_all_schools_googlemaps.py
and src/extract_all_schools_nominatim_backup.py), together with proofs of
the behavioural claims about it.

External effects are modelled as explicit parameters and results:
  * HTTP retrieval (`requests.Session.get` composed with BeautifulSoup's
    `get_text`) is an oracle `String → HttpResult` mapping a URL to either a
    response (status code plus visible page text) or a transport failure
    (the exception branch of the `try`).
  * the Google Maps geocoder `gmaps.geocode` is an oracle
    `String → GmReply` (a list of results, or a raised exception);
  * the Nominatim geocoder `geolocator.geocode` is an oracle
    `String → Nat → NomReply` indexed by the retry-attempt number;
  * a cache file on disk is represented by the outcome of `json.load` on its
    contents: absent, present-but-unparseable (on which `json.load` raises
    `JSONDecodeError`), or a parsed JSON document.  The byte-level JSON
    grammar belongs to Python's `json` library and is not re-modelled.
Python dicts are insertion-ordered association lists; CPython assignment
replaces the value of an existing key in place and appends a fresh key.
-/

namespace Skolverket

/-! ### Python primitives -/

/-- Association list with string keys, modelling a Python `dict`
(insertion ordered). -/
abbrev PyDict (α : Type) := List (String × α)

/-- `d[k]` as an option: the value of the first (hence only) binding of `k`. -/
def dictGet? {α : Type} (d : PyDict α) (k : String) : Option α :=
  match d with
  | [] => none
  | (k', v) :: rest => if k' = k then some v else dictGet? rest k

/-- `d[k] = v`: replace in place when the key exists, append otherwise
(CPython dict assignment keeps the original insertion position). -/
def dictSet {α : Type} (d : PyDict α) (k : String) (v : α) : PyDict α :=
  match d with
  | [] => [(k, v)]
  | (k', v') :: rest =>
    if k' = k then (k, v) :: rest else (k', v') :: dictSet rest k v

/-- The characters Python's `str.strip()` / `str.split()` treat as whitespace
(ASCII fragment; the source data is used with these only). -/
def pyIsSpace (c : Char) : Bool :=
  c = ' ' || c = '\t' || c = '\n' || c = '\r' || c = '\x0b' || c = '\x0c'

/-- Python `s.strip()`. -/
def pyStrip (s : String) : String :=
  String.mk (((s.toList.dropWhile pyIsSpace).reverse.dropWhile pyIsSpace).reverse)

/-- Python `s.split()` (no separator): split on whitespace runs, dropping
empty tokens; a whitespace-only string yields `[]`. -/
def pySplitWS (s : String) : List String :=
  ((s.toList.splitOnP pyIsSpace).filter (· ≠ [])).map String.mk

/-- Python `text.split('\n')`: split at every newline, keeping empty pieces. -/
def splitLines (text : String) : List String :=
  (text.toList.splitOnP (fun c => c = '\n')).map String.mk

/-- Truthiness of an optional Python string: `None` and `""` are falsy. -/
def pyTruthy : Option String → Bool
  | none => false
  | some s => !(s == "")

/-- Python `a or "None"` for an optional string `a`. -/
def orNoneLit (a : Option String) : String :=
  if pyTruthy a then a.getD "" else "None"

/-- Exceptions the embedded code can raise. -/
inductive PyErr where
  | jsonDecodeError
  | indexError
  deriving DecidableEq, Repr

/-! ### HTTP oracle and address extraction -/

/-- Outcome of `session.get(url)` composed with `get_text()`: either a
response carrying the status code and the visible page text, or a raised
transport exception. -/
inductive HttpResult where
  | response (status : Nat) (text : String)
  | failure
  deriving DecidableEq

/-- The templated detail-page URL of `get_school_address`. -/
def schoolUrl (id : String) : String :=
  "https://utbildningsguiden.skolverket.se/skolenhet?schoolUnitID=" ++ id

/-- Primary extraction strategy: scan lines; where a line strips to exactly
`Adress` and a next line exists, accept that next line stripped provided it
is truthy and longer than 3 characters; otherwise keep scanning. -/
def lineScanList : List String → Option String
  | [] => none
  | [_] => none
  | l :: next :: rest =>
    if pyStrip l = "Adress" then
      let a := pyStrip next
      if a ≠ "" ∧ 3 < a.length then some a
      else lineScanList (next :: rest)
    else lineScanList (next :: rest)

/-- The regex group `([^\n]+)` tried with `\s*` shrunk to `j` characters:
succeeds when a character exists at offset `j` and is not a newline, and
greedily takes the non-newline run from there. -/
def tryTail (rest : List Char) (j : Nat) : Option (List Char) :=
  match rest.drop j with
  | [] => none
  | c :: cs => if c = '\n' then none else some ((c :: cs).takeWhile (fun d => d ≠ '\n'))

/-- Backtracking of greedy `\s*` from `j` characters downwards. -/
def backtrackWs (rest : List Char) : Nat → Option (List Char)
  | 0 => tryTail rest 0
  | j + 1 =>
    match tryTail rest (j + 1) with
    | some g => some g
    | none => backtrackWs rest j

/-- `\s*([^\n]+)` on `rest`: `\s*` starts maximal and backtracks. -/
def matchSpacesThenRest (rest : List Char) : Option (List Char) :=
  backtrackWs rest (rest.takeWhile pyIsSpace).length

/-- `:?\s*([^\n]+)` on the text following the literal `Adress`: the greedy
optional colon is consumed first and given up on failure. -/
def matchAfterLabel (rest : List Char) : Option (List Char) :=
  match rest with
  | ':' :: r1 =>
    (match matchSpacesThenRest r1 with
     | some g => some g
     | none => matchSpacesThenRest rest)
  | _ => matchSpacesThenRest rest

def adressLabel : List Char := ['A', 'd', 'r', 'e', 's', 's']

/-- `re.search(r'Adress:?\s*([^\n]+)', text)`: leftmost starting position
wins; on failure of the tail the search resumes one character further. -/
def regexSearchAdress : List Char → Option (List Char)
  | [] => none
  | c :: cs =>
    if adressLabel.isPrefixOf (c :: cs) then
      match matchAfterLabel ((c :: cs).drop 6) with
      | some g => some g
      | none => regexSearchAdress cs
    else regexSearchAdress cs

/-- Address extraction from a 200-response page text: the line scan first,
then the regex fallback (whose captured group is stripped and accepted
unconditionally, even when empty). -/
def extractAddress (text : String) : Option String :=
  match lineScanList (splitLines text) with
  | some a => some a
  | none =>
    match regexSearchAdress text.toList with
    | some g => some (pyStrip (String.mk g))
    | none => none

/-! ### AddressResolver: `SchoolMapper.get_school_address` -/

/-- Result of one `get_school_address` call: the returned value, the address
cache afterwards, and the list of URLs actually fetched. -/
structure AddrOut where
  result : Option String
  cache : PyDict (Option String)
  fetched : List String
  deriving DecidableEq

/-- `SchoolMapper.get_school_address` (identical in both script variants):
return a cached value (including a cached `None`) with no network call;
otherwise fetch the detail page, extract, and cache the outcome — the
extracted string on success, `None` on parse failure, non-200 status or
transport error. -/
def get_school_address (fetch : String → HttpResult)
    (cache : PyDict (Option String)) (id : String) : AddrOut :=
  match dictGet? cache id with
  | some v => ⟨v, cache, []⟩
  | none =>
    let url := schoolUrl id
    match fetch url with
    | .response status text =>
      if status = 200 then
        match extractAddress text with
        | some a => ⟨some a, dictSet cache id (some a), [url]⟩
        | none => ⟨none, dictSet cache id none, [url]⟩
      else ⟨none, dictSet cache id none, [url]⟩
    | .failure => ⟨none, dictSet cache id none, [url]⟩

/-! ### GeocodeResolver: `SchoolMapper.geocode_address` -/

/-- The composite coordinate-cache key `f"{address or 'None'}|{municipality}"`. -/
def coordKey (address : Option String) (municipality : String) : String :=
  orNoneLit address ++ "|" ++ municipality

/-- Candidate-query list of the Google Maps variant. -/
def candidates_gm (address : Option String) (municipality : String) : List String :=
  if pyTruthy address then
    let a := address.getD ""
    [a ++ ", " ++ municipality ++ ", Sweden",
     a ++ ", Sweden",
     municipality ++ ", Sweden"]
  else [municipality ++ ", Sweden"]

/-- Candidate-query list of the Nominatim variant; building it evaluates
`address.split()[0]`, which raises `IndexError` when the truthy address
splits into no tokens. -/
def candidates_nom (address : Option String) (municipality : String) :
    Except PyErr (List String) :=
  if pyTruthy address then
    let a := address.getD ""
    match pySplitWS a with
    | [] => .error .indexError
    | t :: _ =>
      .ok [a ++ ", " ++ municipality ++ ", Sweden",
           a ++ ", Sweden",
           t ++ ", " ++ municipality ++ ", Sweden",
           municipality ++ ", Sweden"]
  else .ok [municipality ++ ", Sweden"]

/-- Outcome of one `gmaps.geocode(query)` call: a (possibly empty) result
list, or a raised exception (caught and skipped by the cascade). -/
inductive GmReply where
  | results (rs : List (Rat × Rat))
  | apiError
  deriving DecidableEq

/-- Outcome of one `geolocator.geocode(query)` call: a location, `None`, or
a raised exception (caught by the per-attempt `try`). -/
inductive NomReply where
  | found (p : Rat × Rat)
  | noLocation
  | raised
  deriving DecidableEq

/-- Google Maps cascade over the candidate list: one attempt per candidate,
first candidate with a non-empty result list wins with its first result;
the second component records the queries actually issued, in order. -/
def geocode_cascade_gm (g : String → GmReply) :
    List String → Option (Rat × Rat) × List String
  | [] => (none, [])
  | c :: rest =>
    match g c with
    | .results (p :: _) => (some p, [c])
    | _ =>
      let r := geocode_cascade_gm g rest
      (r.1, c :: r.2)

/-- Nominatim cascade: each candidate is attempted up to twice (the oracle
is indexed by the attempt number); the first attempt that yields a location
wins and the cascade stops. -/
def geocode_cascade_nom (g : String → Nat → NomReply) :
    List String → Option (Rat × Rat) × List String
  | [] => (none, [])
  | c :: rest =>
    match g c 0 with
    | .found p => (some p, [c])
    | _ =>
      match g c 1 with
      | .found p => (some p, [c, c])
      | _ =>
        let r := geocode_cascade_nom g rest
        (r.1, c :: c :: r.2)

/-- Result of one `geocode_address` call: the returned value, the coordinate
cache afterwards, and the geocoder queries actually issued. -/
structure GeoOut where
  result : Option (Rat × Rat)
  cache : PyDict (Option (Rat × Rat))
  queried : List String
  deriving DecidableEq

/-- `SchoolMapper.geocode_address` of the Google Maps variant: a cache hit
(coordinates, or `None` for a previously failed key) returns immediately
with no query; otherwise the cascade runs and its outcome — the winning
pair or `None` — is cached under the composite key. -/
def geocode_address_gm (g : String → GmReply)
    (cache : PyDict (Option (Rat × Rat))) (address : Option String)
    (municipality : String) : GeoOut :=
  let key := coordKey address municipality
  match dictGet? cache key with
  | some v => ⟨v, cache, []⟩
  | none =>
    let r := geocode_cascade_gm g (candidates_gm address municipality)
    match r.1 with
    | some p => ⟨some p, dictSet cache key (some p), r.2⟩
    | none => ⟨none, dictSet cache key none, r.2⟩

/-- `SchoolMapper.geocode_address` of the Nominatim variant; candidate-list
construction may raise, and that exception propagates to the caller. -/
def geocode_address_nom (g : String → Nat → NomReply)
    (cache : PyDict (Option (Rat × Rat))) (address : Option String)
    (municipality : String) : Except PyErr GeoOut :=
  let key := coordKey address municipality
  match dictGet? cache key with
  | some v => .ok ⟨v, cache, []⟩
  | none =>
    match candidates_nom address municipality with
    | .error e => .error e
    | .ok cs =>
      let r := geocode_cascade_nom g cs
      match r.1 with
      | some p => .ok ⟨some p, dictSet cache key (some p), r.2⟩
      | none => .ok ⟨none, dictSet cache key none, r.2⟩

/-! ### ResolutionPipeline: the per-row body of `main` -/

/-- One input row of the dataset, after the upstream CSV filtering. -/
structure SchoolRow where
  id : String
  name : String
  municipality : String
  merit : Rat
  deriving DecidableEq

/-- An output record of the pipeline (one entry of `school_data`). -/
structure Enriched where
  id : String
  name : String
  municipality : String
  address : String
  merit : Rat
  lat : Rat
  lng : Rat
  deriving DecidableEq

/-- The two in-memory caches threaded through a run. -/
structure PipeState where
  addrCache : PyDict (Option String)
  coordCache : PyDict (Option (Rat × Rat))
  deriving DecidableEq

/-- Result of processing one row: the updated caches, the record appended to
`school_data` (if any), the rate-limit sleep performed at the end of the
loop body (in seconds), and the number of network calls issued. -/
structure RowOut where
  state : PipeState
  emitted : Option Enriched
  sleep : Rat
  netCalls : Nat
  deriving DecidableEq

/-- The record appended when geocoding returned a pair: its address field is
`address or municipality`. -/
def mkEnriched (row : SchoolRow) (address : Option String) (p : Rat × Rat) :
    Enriched :=
  ⟨row.id, row.name, row.municipality,
   (if pyTruthy address then address.getD "" else row.municipality),
   row.merit, p.1, p.2⟩

/-- Loop body of `main` in the Google Maps variant: remember whether the
address was cached, resolve the address, always geocode (even a `None`
address), append a record exactly when geocoding returned coordinates, and
sleep 0.2 s only when the address cache missed. -/
def processRow_gm (fetch : String → HttpResult) (g : String → GmReply)
    (st : PipeState) (row : SchoolRow) : RowOut :=
  let wasCached := (dictGet? st.addrCache row.id).isSome
  let a := get_school_address fetch st.addrCache row.id
  let c := geocode_address_gm g st.coordCache a.result row.municipality
  { state := ⟨a.cache, c.cache⟩
    emitted :=
      match c.result with
      | some p => some (mkEnriched row a.result p)
      | none => none
    sleep := if wasCached then 0 else 2 / 10
    netCalls := a.fetched.length + c.queried.length }

/-- Loop body of `main` in the Nominatim variant: same shape, except that
the geocoder may raise and the trailing `time.sleep(0.5)` is unconditional. -/
def processRow_nom (fetch : String → HttpResult) (g : String → Nat → NomReply)
    (st : PipeState) (row : SchoolRow) : Except PyErr RowOut :=
  let a := get_school_address fetch st.addrCache row.id
  match geocode_address_nom g st.coordCache a.result row.municipality with
  | .error e => .error e
  | .ok c =>
    .ok { state := ⟨a.cache, c.cache⟩
          emitted :=
            match c.result with
            | some p => some (mkEnriched row a.result p)
            | none => none
          sleep := 5 / 10
          netCalls := a.fetched.length + c.queried.length }

/-- The whole Google Maps pipeline loop: rows processed once each, in order;
the emitted records are collected in order. -/
def runPipeline_gm (fetch : String → HttpResult) (g : String → GmReply) :
    PipeState → List SchoolRow → PipeState × List Enriched
  | st, [] => (st, [])
  | st, row :: rest =>
    let o := processRow_gm fetch g st row
    let r := runPipeline_gm fetch g o.state rest
    (r.1, match o.emitted with
          | some e => e :: r.2
          | none => r.2)

/-! ### Cache persistence -/

/-- JSON documents, as materialized by Python's `json` module (numbers
modelled as rationals; object fields in file order). -/
inductive Json where
  | null
  | str (s : String)
  | num (q : Rat)
  | bool (b : Bool)
  | arr (elems : List Json)
  | obj (fields : List (String × Json))

/-- A cache file as seen through `json.load`: absent, present but not
parseable as JSON (`json.load` raises `JSONDecodeError`), or a parsed
document. -/
inductive FileState where
  | absent
  | invalid
  | valid (doc : Json)

/-- `SchoolMapper.load_address_cache`: an absent file yields `{}`; an
existing file is handed to `json.load` with no exception handling. -/
def load_address_cache : FileState → Except PyErr Json
  | .absent => .ok (Json.obj [])
  | .invalid => .error .jsonDecodeError
  | .valid d => .ok d

/-- `SchoolMapper.load_coord_cache`: same body over the other file. -/
def load_coord_cache : FileState → Except PyErr Json
  | .absent => .ok (Json.obj [])
  | .invalid => .error .jsonDecodeError
  | .valid d => .ok d

/-- The JSON document `json.dump` writes for the address cache. -/
def encodeAddrCache (M : PyDict (Option String)) : Json :=
  .obj (M.map (fun kv =>
    (kv.1, match kv.2 with
           | none => Json.null
           | some s => Json.str s)))

/-- The JSON document `json.dump` writes for the coordinate cache (a pair is
stored as the two-element array `[lat, lng]`). -/
def encodeCoordCache (M : PyDict (Option (Rat × Rat))) : Json :=
  .obj (M.map (fun kv =>
    (kv.1, match kv.2 with
           | none => Json.null
           | some p => Json.arr [Json.num p.1, Json.num p.2])))

/-- `SchoolMapper.save_address_cache`: overwrite the backing file with the
dumped cache. -/
def save_address_cache (M : PyDict (Option String)) : FileState :=
  .valid (encodeAddrCache M)

/-- `SchoolMapper.save_coord_cache`. -/
def save_coord_cache (M : PyDict (Option (Rat × Rat))) : FileState :=
  .valid (encodeCoordCache M)

/-- Materialize the fields of a loaded address-cache object back into the
in-memory mapping (string values and `null` sentinels; anything else is not
an address-cache shape). -/
def decodeAddrFields : List (String × Json) → Option (PyDict (Option String))
  | [] => some []
  | (k, v) :: rest =>
    match v with
    | .null =>
      (match decodeAddrFields rest with
       | some M => some ((k, none) :: M)
       | none => none)
    | .str s =>
      (match decodeAddrFields rest with
       | some M => some ((k, some s) :: M)
       | none => none)
    | _ => none

/-- Materialize a loaded address-cache document. -/
def decodeAddrCache : Json → Option (PyDict (Option String))
  | .obj fields => decodeAddrFields fields
  | _ => none

/-- Materialize the fields of a loaded coordinate-cache object. -/
def decodeCoordFields : List (String × Json) → Option (PyDict (Option (Rat × Rat)))
  | [] => some []
  | (k, v) :: rest =>
    match v with
    | .null =>
      (match decodeCoordFields rest with
       | some M => some ((k, none) :: M)
       | none => none)
    | .arr [Json.num a, Json.num b] =>
      (match decodeCoordFields rest with
       | some M => some ((k, some (a, b)) :: M)
       | none => none)
    | _ => none

/-- Materialize a loaded coordinate-cache document. -/
def decodeCoordCache : Json → Option (PyDict (Option (Rat × Rat)))
  | .obj fields => decodeCoordFields fields
  | _ => none

/-! ### Concrete oracles used in witnesses and counterexamples -/

/-- A fetch oracle whose every request raises a transport error. -/
def fetchFail : String → HttpResult := fun _ => .failure

/-- A fetch oracle answering every request with status 404. -/
def fetch404 : String → HttpResult := fun _ => .response 404 ""

/-- A fetch oracle answering every request with status 200 and page text `t`. -/
def fetchPage (t : String) : String → HttpResult := fun _ => .response 200 t

/-- A Google Maps oracle returning one fixed result for every query. -/
def gmAlways : String → GmReply := fun _ => .results [(59, 17)]

/-- A Google Maps oracle with no result for query `A`, distinct single
results for `B` and `C`. -/
def gmSkipsFirst : String → GmReply := fun q =>
  if q = "B" then .results [(59, 17)]
  else if q = "C" then .results [(1, 2)]
  else .results []

/-- A Nominatim oracle that never finds a location. -/
def gNomNever : String → Nat → NomReply := fun _ _ => .noLocation

/-- A Nominatim oracle raising on query `A`, finding distinct locations for
`B` and `C`. -/
def gNomSkipsFirst : String → Nat → NomReply := fun q _ =>
  if q = "B" then .found (59, 17)
  else if q = "C" then .found (1, 2)
  else .raised

/-! ### Helper lemmas -/

theorem dictGet?_dictSet_self {α : Type} (d : PyDict α) (k : String) (v : α) :
    dictGet? (dictSet d k v) k = some v := by
  induction d with
  | nil => simp [dictSet, dictGet?]
  | cons p rest ih =>
    obtain ⟨k', v'⟩ := p
    by_cases hk : k' = k
    · subst hk; simp [dictSet, dictGet?]
    · simp [dictSet, dictGet?, hk, ih]

/-- Whatever path `get_school_address` takes on a cache miss, the cache
afterwards binds `id` to the returned value. -/
theorem get_school_address_writeback (fetch : String → HttpResult)
    (cache : PyDict (Option String)) (id : String)
    (h : dictGet? cache id = none) :
    dictGet? (get_school_address fetch cache id).cache id
      = some (get_school_address fetch cache id).result := by
  simp only [get_school_address, h]
  split
  · split
    · split <;> simp [dictGet?_dictSet_self]
    · simp [dictGet?_dictSet_self]
  · simp [dictGet?_dictSet_self]

/-- A cache hit returns the stored value with no fetch and no cache change. -/
theorem get_school_address_hit (fetch : String → HttpResult)
    (cache : PyDict (Option String)) (id : String) (v : Option String)
    (h : dictGet? cache id = some v) :
    get_school_address fetch cache id = ⟨v, cache, []⟩ := by
  unfold get_school_address
  rw [h]

/-- A coordinate-cache hit of the Google Maps variant returns the stored
value with no query and no cache change. -/
theorem geocode_address_gm_hit (g : String → GmReply)
    (cache : PyDict (Option (Rat × Rat))) (a : Option String) (m : String)
    (v : Option (Rat × Rat)) (h : dictGet? cache (coordKey a m) = some v) :
    geocode_address_gm g cache a m = ⟨v, cache, []⟩ := by
  simp only [geocode_address_gm, h]

/-- A coordinate-cache hit of the Nominatim variant returns the stored value
with no query, no cache change, and no exception. -/
theorem geocode_address_nom_hit (g : String → Nat → NomReply)
    (cache : PyDict (Option (Rat × Rat))) (a : Option String) (m : String)
    (v : Option (Rat × Rat)) (h : dictGet? cache (coordKey a m) = some v) :
    geocode_address_nom g cache a m = .ok ⟨v, cache, []⟩ := by
  simp only [geocode_address_nom, h]

/-! ### Claims -/

/-- **C1.** A key already present in a cache (including one whose stored
value is the `null` sentinel) is answered from the cache with zero network
calls: `get_school_address` on a cached id returns the stored value and
fetches nothing; `geocode_address` (both variants) on a cached composite
key returns the stored coordinates, or `none` for a cached failure, and
issues no query; and once `none` has been cached for an id, a second
`get_school_address` with the same id returns `none` with no fetch. -/
theorem claim1_cache_hit_no_network :
    (∀ (fetch : String → HttpResult) (cache : PyDict (Option String))
       (id : String) (v : Option String), dictGet? cache id = some v →
       get_school_address fetch cache id = ⟨v, cache, []⟩) ∧
    (∀ (g : String → GmReply) (cache : PyDict (Option (Rat × Rat)))
       (a : Option String) (m : String) (v : Option (Rat × Rat)),
       dictGet? cache (coordKey a m) = some v →
       geocode_address_gm g cache a m = ⟨v, cache, []⟩) ∧
    (∀ (g : String → Nat → NomReply) (cache : PyDict (Option (Rat × Rat)))
       (a : Option String) (m : String) (v : Option (Rat × Rat)),
       dictGet? cache (coordKey a m) = some v →
       geocode_address_nom g cache a m = .ok ⟨v, cache, []⟩) ∧
    (∀ (fetch : String → HttpResult) (cache : PyDict (Option String))
       (id : String), dictGet? cache id = none →
       (get_school_address fetch cache id).result = none →
       get_school_address fetch (get_school_address fetch cache id).cache id
         = ⟨none, (get_school_address fetch cache id).cache, []⟩) := by
  refine ⟨get_school_address_hit, geocode_address_gm_hit,
    geocode_address_nom_hit, ?_⟩
  intro fetch cache id h hres
  have hw := get_school_address_writeback fetch cache id h
  rw [hres] at hw
  exact get_school_address_hit fetch _ id none hw

/-- **C1 witness.** Concrete cache hits: a cached address, a cached `null`
address, a cached coordinate pair, and a cached geocoding failure. -/
theorem claim1_cache_hit_no_network_witness :
    (get_school_address fetchFail [("1", some "Kungsgatan 10"), ("2", none)] "1"
      = ⟨some "Kungsgatan 10", [("1", some "Kungsgatan 10"), ("2", none)], []⟩) ∧
    (get_school_address fetchFail [("1", some "Kungsgatan 10"), ("2", none)] "2"
      = ⟨none, [("1", some "Kungsgatan 10"), ("2", none)], []⟩) ∧
    (geocode_address_gm gmAlways [("None|Uppsala", some (59, 17))] none "Uppsala"
      = ⟨some (59, 17), [("None|Uppsala", some (59, 17))], []⟩) ∧
    (geocode_address_nom gNomNever [("None|Uppsala", none)] none "Uppsala"
      = .ok ⟨none, [("None|Uppsala", none)], []⟩) := by
  refine ⟨claim1_cache_hit_no_network.1 fetchFail _ "1" _ (by decide),
    claim1_cache_hit_no_network.1 fetchFail _ "2" _ (by decide),
    claim1_cache_hit_no_network.2.1 gmAlways _ none "Uppsala" _ ?_,
    claim1_cache_hit_no_network.2.2.1 gNomNever _ none "Uppsala" _ ?_⟩
  · show dictGet? [("None|Uppsala", some ((59 : Rat), (17 : Rat)))] (coordKey none "Uppsala")
      = some (some (59, 17))
    rfl
  · rfl

/-- **C2 counterexample.** An existing cache file that is not parseable as
JSON is handed to `json.load` with no exception handling, so construction
raises `JSONDecodeError` rather than yielding an empty store. -/
theorem claim2_counterexample :
    load_address_cache FileState.invalid = .error PyErr.jsonDecodeError ∧
    load_coord_cache FileState.invalid = .error PyErr.jsonDecodeError :=
  ⟨rfl, rfl⟩

/-- **C2 amended.** Loading at construction fails soft only for an absent
backing file, which yields an empty store; a present file is parsed with
`json.load`, so a parseable file yields its document and a malformed file
raises `JSONDecodeError` (it is fatal, not tolerated). -/
theorem claim2_amended :
    (load_address_cache FileState.absent = .ok (Json.obj []) ∧
     load_coord_cache FileState.absent = .ok (Json.obj [])) ∧
    (∀ d : Json, load_address_cache (FileState.valid d) = .ok d ∧
       load_coord_cache (FileState.valid d) = .ok d) ∧
    (load_address_cache FileState.invalid = .error PyErr.jsonDecodeError ∧
     load_coord_cache FileState.invalid = .error PyErr.jsonDecodeError) :=
  ⟨⟨rfl, rfl⟩, fun _ => ⟨rfl, rfl⟩, rfl, rfl⟩

/-- **C7.** On a cache miss, every return path of `get_school_address`
writes the outcome to the address cache under the requested id before
returning, and the stored value equals the returned one: an extracted
address is cached as that string; a transport error, a non-200 status, and
a parse failure (no extraction) are cached as `null`. -/
theorem claim7_addr_writeback (fetch : String → HttpResult)
    (cache : PyDict (Option String)) (id : String)
    (h : dictGet? cache id = none) :
    dictGet? (get_school_address fetch cache id).cache id
      = some (get_school_address fetch cache id).result ∧
    (fetch (schoolUrl id) = .failure →
       (get_school_address fetch cache id).result = none) ∧
    (∀ s t, fetch (schoolUrl id) = .response s t → s ≠ 200 →
       (get_school_address fetch cache id).result = none) ∧
    (∀ t, fetch (schoolUrl id) = .response 200 t →
       (get_school_address fetch cache id).result = extractAddress t) := by
  refine ⟨get_school_address_writeback fetch cache id h, ?_, ?_, ?_⟩
  · intro hf
    simp [get_school_address, h, hf]
  · intro s t hf hs
    simp [get_school_address, h, hf, hs]
  · intro t hf
    simp only [get_school_address, h, hf]
    cases he : extractAddress t <;> simp [he]

/-- **C7 witness.** A concrete miss on each path: a 200 page whose text
carries an address, a 404, and a transport failure. -/
theorem claim7_addr_writeback_witness :
    (dictGet? (get_school_address (fetchPage "Adress\nKungsgatan 10") [] "1").cache "1"
      = some (get_school_address (fetchPage "Adress\nKungsgatan 10") [] "1").result) ∧
    ((get_school_address (fetchPage "Adress\nKungsgatan 10") [] "1").result
      = extractAddress "Adress\nKungsgatan 10") ∧
    ((get_school_address fetch404 [] "2").result = none) ∧
    ((get_school_address fetchFail [] "3").result = none) :=
  ⟨(claim7_addr_writeback (fetchPage "Adress\nKungsgatan 10") [] "1" rfl).1,
   (claim7_addr_writeback (fetchPage "Adress\nKungsgatan 10") [] "1" rfl).2.2.2
     "Adress\nKungsgatan 10" rfl,
   (claim7_addr_writeback fetch404 [] "2" rfl).2.2.1 404 "" rfl (by decide),
   (claim7_addr_writeback fetchFail [] "3" rfl).2.1 rfl⟩

/-- **C9.** A truthy but whitespace-only address is an uncached input on
which the Nominatim variant's `geocode_address` raises `IndexError` while
building the candidate list (`address.split()[0]` on an empty token list),
instead of returning coordinates or `None`. -/
theorem claim9_whitespace_address_raises :
    pyTruthy (some " ") = true ∧
    pySplitWS " " = [] ∧
    dictGet? ([] : PyDict (Option (Rat × Rat))) (coordKey (some " ") "Uppsala") = none ∧
    geocode_address_nom gNomNever [] (some " ") "Uppsala" = .error PyErr.indexError :=
  ⟨rfl, rfl, rfl, rfl⟩

/-- The primary line-scan strategy only ever returns a candidate whose
trimmed length exceeds 3. -/
theorem lineScanList_min_length : ∀ (ls : List String) (r : String),
    lineScanList ls = some r → 3 < r.length := by
  intro ls
  induction ls with
  | nil => intro r h; simp [lineScanList] at h
  | cons l rest ih =>
    intro r h
    cases rest with
    | nil => simp [lineScanList] at h
    | cons next rest' =>
      simp only [lineScanList] at h
      by_cases hl : pyStrip l = "Adress"
      · rw [if_pos hl] at h
        by_cases hc : pyStrip next ≠ "" ∧ 3 < (pyStrip next).length
        · rw [if_pos hc] at h
          rw [← Option.some.inj h]
          exact hc.2
        · rw [if_neg hc] at h
          exact ih r h
      · rw [if_neg hl] at h
        exact ih r h

/-- **C10.** The regex fallback applies no minimum-length check: a 200 page
whose text matches the label pattern with a short tail makes
`get_school_address` return and cache an address of trimmed length ≤ 3 —
even the empty string, a cache value distinct from the `null` sentinel —
while the primary line-scan strategy rejects every candidate of trimmed
length 3 or less. -/
theorem claim10_regex_fallback_unchecked :
    ((get_school_address (fetchPage "Adress: AB") [] "1").result = some "AB" ∧
     (get_school_address (fetchPage "Adress: AB") [] "1").cache = [("1", some "AB")] ∧
     ("AB" : String).length ≤ 3) ∧
    ((get_school_address (fetchPage "Adress: ") [] "2").result = some "" ∧
     (get_school_address (fetchPage "Adress: ") [] "2").cache = [("2", some "")] ∧
     some "" ≠ (none : Option String)) ∧
    (∀ (ls : List String) (r : String), lineScanList ls = some r → 3 < r.length) := by
  refine ⟨⟨rfl, rfl, by decide⟩, ⟨rfl, rfl, by decide⟩, lineScanList_min_length⟩

/-- **C10 witness.** The line-scan bound applied at a concrete page: the
accepted candidate `Kungsgatan 10` is indeed longer than 3. -/
theorem claim10_regex_fallback_unchecked_witness :
    lineScanList ["Adress", "Kungsgatan 10"] = some "Kungsgatan 10" ∧
    3 < ("Kungsgatan 10" : String).length :=
  ⟨by decide,
   claim10_regex_fallback_unchecked.2.2 ["Adress", "Kungsgatan 10"]
     "Kungsgatan 10" (by decide)⟩

/-- **C5.** First success wins in the geocoding cascade: in both variants,
when the first candidate yields no result and the second yields one, the
resolver returns the second candidate's first result and the third
candidate is never queried (the issued-query log stops at the second). -/
theorem claim5_cascade_first_success :
    (∀ (g : String → GmReply) (c1 c2 c3 : String) (p : Rat × Rat)
       (rs : List (Rat × Rat)),
       g c1 = .results [] ∨ g c1 = .apiError →
       g c2 = .results (p :: rs) →
       geocode_cascade_gm g [c1, c2, c3] = (some p, [c1, c2])) ∧
    (∀ (g : String → Nat → NomReply) (c1 c2 c3 : String) (p : Rat × Rat),
       g c1 0 = .noLocation ∨ g c1 0 = .raised →
       g c1 1 = .noLocation ∨ g c1 1 = .raised →
       g c2 0 = .found p →
       geocode_cascade_nom g [c1, c2, c3] = (some p, [c1, c1, c2])) := by
  constructor
  · intro g c1 c2 c3 p rs h1 h2
    rcases h1 with h1 | h1 <;>
      simp [geocode_cascade_gm, h1, h2]
  · intro g c1 c2 c3 p h0 h1 h2
    rcases h0 with h0 | h0 <;> rcases h1 with h1 | h1 <;>
      simp [geocode_cascade_nom, h0, h1, h2]

/-- **C5 witness.** A concrete cascade in each variant where only the
second and third candidates would succeed: the second one's result is
returned and the third is never queried. -/
theorem claim5_cascade_first_success_witness :
    geocode_cascade_gm gmSkipsFirst ["A", "B", "C"] = (some (59, 17), ["A", "B"]) ∧
    geocode_cascade_nom gNomSkipsFirst ["A", "B", "C"]
      = (some (59, 17), ["A", "A", "B"]) :=
  ⟨claim5_cascade_first_success.1 gmSkipsFirst "A" "B" "C" (59, 17) []
     (Or.inl rfl) rfl,
   claim5_cascade_first_success.2 gNomSkipsFirst "A" "B" "C" (59, 17)
     (Or.inr rfl) (Or.inr rfl) rfl⟩

/-- **C4 counterexample.** The Nominatim variant's candidate list for a
known address puts the street-name candidate third and the locality-only
fallback fourth, not the claimed order (locality-only third, street-name
fourth). -/
theorem claim4_counterexample :
    candidates_nom (some "Kungsgatan 10") "Uppsala"
      = .ok ["Kungsgatan 10, Uppsala, Sweden", "Kungsgatan 10, Sweden",
             "Kungsgatan, Uppsala, Sweden", "Uppsala, Sweden"] ∧
    (["Kungsgatan 10, Uppsala, Sweden", "Kungsgatan 10, Sweden",
      "Kungsgatan, Uppsala, Sweden", "Uppsala, Sweden"] : List String)
      ≠ ["Kungsgatan 10, Uppsala, Sweden", "Kungsgatan 10, Sweden",
         "Uppsala, Sweden", "Kungsgatan, Uppsala, Sweden"] :=
  ⟨rfl, by decide⟩

theorem pyTruthy_some_of_ne (a : String) (ha : a ≠ "") :
    pyTruthy (some a) = true := by
  simp [pyTruthy, ha]

/-- **C4 amended.** With a truthy address, the Google Maps variant's
candidate list is exactly address+municipality, address-only, then the
locality-only fallback; the Nominatim variant inserts the street-name
candidate (first whitespace token of the address plus municipality) as the
*third* entry, before the locality-only fallback, which is fourth.  With no
address — or an empty-string address, which is falsy — the list has exactly
one entry, municipality plus country. -/
theorem claim4_candidate_lists (a m t : String) (ts : List String)
    (ha : a ≠ "") (hsplit : pySplitWS a = t :: ts) :
    candidates_gm (some a) m
      = [a ++ ", " ++ m ++ ", Sweden", a ++ ", Sweden", m ++ ", Sweden"] ∧
    candidates_nom (some a) m
      = .ok [a ++ ", " ++ m ++ ", Sweden", a ++ ", Sweden",
             t ++ ", " ++ m ++ ", Sweden", m ++ ", Sweden"] ∧
    candidates_gm none m = [m ++ ", Sweden"] ∧
    candidates_nom none m = .ok [m ++ ", Sweden"] ∧
    candidates_gm (some "") m = [m ++ ", Sweden"] ∧
    candidates_nom (some "") m = .ok [m ++ ", Sweden"] := by
  refine ⟨?_, ?_, rfl, rfl, rfl, rfl⟩
  · simp [candidates_gm, pyTruthy_some_of_ne a ha]
  · simp [candidates_nom, pyTruthy_some_of_ne a ha, hsplit]

/-- **C4 witness.** The amended candidate lists at a concrete address. -/
theorem claim4_candidate_lists_witness :
    candidates_gm (some "Kungsgatan 10") "Uppsala"
      = ["Kungsgatan 10, Uppsala, Sweden", "Kungsgatan 10, Sweden",
         "Uppsala, Sweden"] ∧
    candidates_nom (some "Kungsgatan 10") "Uppsala"
      = .ok ["Kungsgatan 10, Uppsala, Sweden", "Kungsgatan 10, Sweden",
             "Kungsgatan, Uppsala, Sweden", "Uppsala, Sweden"] :=
  ⟨(claim4_candidate_lists "Kungsgatan 10" "Uppsala" "Kungsgatan" ["10"]
      (by decide) (by decide)).1,
   (claim4_candidate_lists "Kungsgatan 10" "Uppsala" "Kungsgatan" ["10"]
      (by decide) (by decide)).2.1⟩

/-- **C3 counterexample.** A row whose address resolution returns `null`
but whose municipality-level geocoding succeeds *does* appear in the
pipeline output (with the municipality standing in as its address). -/
theorem claim3_counterexample :
    (get_school_address fetch404 [] "100").result = none ∧
    (processRow_gm fetch404 gmAlways ⟨[], []⟩
        ⟨"100", "Test School", "Uppsala", 280⟩).emitted
      = some ⟨"100", "Test School", "Uppsala", "Uppsala", 280, 59, 17⟩ ∧
    (runPipeline_gm fetch404 gmAlways ⟨[], []⟩
        [⟨"100", "Test School", "Uppsala", 280⟩]).2
      = [⟨"100", "Test School", "Uppsala", "Uppsala", 280, 59, 17⟩] :=
  ⟨rfl, rfl, rfl⟩

/-- **C3 amended.** A row is emitted if and only if its geocoding stage
returned coordinates; a failed address resolution alone does not drop the
row (the emitted record then carries the municipality as its address, per
`mkEnriched`).  Each row is processed exactly once, so the pipeline emits
at most one record per input row and never retries a dropped row. -/
theorem claim3_emit_iff_geocode :
    (∀ (fetch : String → HttpResult) (g : String → GmReply)
       (st : PipeState) (row : SchoolRow),
       (processRow_gm fetch g st row).emitted
         = ((geocode_address_gm g st.coordCache
               (get_school_address fetch st.addrCache row.id).result
               row.municipality).result).map
             (mkEnriched row (get_school_address fetch st.addrCache row.id).result)) ∧
    (∀ (fetch : String → HttpResult) (g : String → GmReply)
       (st : PipeState) (rows : List SchoolRow),
       (runPipeline_gm fetch g st rows).2.length ≤ rows.length) := by
  constructor
  · intro fetch g st row
    simp only [processRow_gm]
    cases hc : (geocode_address_gm g st.coordCache
        (get_school_address fetch st.addrCache row.id).result
        row.municipality).result <;> simp [hc]
  · intro fetch g st rows
    induction rows generalizing st with
    | nil => simp [runPipeline_gm]
    | cons row rest ih =>
      simp only [runPipeline_gm]
      cases he : (processRow_gm fetch g st row).emitted
      · simp only [he, List.length_cons]
        exact Nat.le_succ_of_le (ih _)
      · simp only [he, List.length_cons]
        exact Nat.succ_le_succ (ih _)

/-- **C6 counterexample.** In the Nominatim variant a row served entirely
from both caches (zero network calls) still incurs the unconditional 0.5 s
rate-limit sleep, so a fully-cached re-run sleeps on every row. -/
theorem claim6_counterexample :
    processRow_nom fetchFail gNomNever
        ⟨[("1", some "Kungsgatan 10")], [("Kungsgatan 10|Uppsala", some (59, 17))]⟩
        ⟨"1", "Test School", "Uppsala", 280⟩
      = .ok ⟨⟨[("1", some "Kungsgatan 10")],
              [("Kungsgatan 10|Uppsala", some (59, 17))]⟩,
             some ⟨"1", "Test School", "Uppsala", "Kungsgatan 10", 280, 59, 17⟩,
             5 / 10, 0⟩ ∧
    ((5 : Rat) / 10 ≠ 0) :=
  ⟨rfl, by norm_num⟩

/-- **C6 amended.** The Google Maps variant sleeps 0.2 s exactly when the
row's address-cache lookup missed — and such a miss always issues the one
detail-page fetch, so its sleep happens only after a real network fetch and
a fully address-cached row incurs no delay.  The Nominatim variant instead
sleeps 0.5 s unconditionally after every processed row, cached or not. -/
theorem claim6_sleep_policy :
    (∀ (fetch : String → HttpResult) (g : String → GmReply)
       (st : PipeState) (row : SchoolRow),
       (processRow_gm fetch g st row).sleep
         = if (dictGet? st.addrCache row.id).isSome then 0 else 2 / 10) ∧
    (∀ (fetch : String → HttpResult) (cache : PyDict (Option String))
       (id : String), dictGet? cache id = none →
       (get_school_address fetch cache id).fetched = [schoolUrl id]) ∧
    (∀ (fetch : String → HttpResult) (g : String → Nat → NomReply)
       (st : PipeState) (row : SchoolRow) (out : RowOut),
       processRow_nom fetch g st row = .ok out → out.sleep = 5 / 10) := by
  refine ⟨fun fetch g st row => rfl, ?_, ?_⟩
  · intro fetch cache id h
    simp only [get_school_address, h]
    split
    · split
      · split <;> rfl
      · rfl
    · rfl
  · intro fetch g st row out h
    simp only [processRow_nom] at h
    split at h
    · exact absurd h (by simp)
    · injection h with h'
      rw [← h']

/-- **C6 witness.** The sleep policy at concrete rows: an uncached Google
Maps row sleeps 0.2 s after its one fetch, a cached one does not sleep, and
a fully cached Nominatim row still sleeps 0.5 s. -/
theorem claim6_sleep_policy_witness :
    ((processRow_gm fetchFail gmAlways ⟨[], []⟩ ⟨"1", "S", "Uppsala", 200⟩).sleep
      = if (dictGet? ([] : PyDict (Option String)) "1").isSome then 0 else 2 / 10) ∧
    ((get_school_address fetchFail [] "1").fetched = [schoolUrl "1"]) ∧
    (RowOut.sleep
       ⟨⟨[("1", some "Kungsgatan 10")], [("Kungsgatan 10|Uppsala", some (59, 17))]⟩,
        some ⟨"1", "Test School", "Uppsala", "Kungsgatan 10", 280, 59, 17⟩,
        5 / 10, 0⟩
      = 5 / 10) :=
  ⟨claim6_sleep_policy.1 fetchFail gmAlways ⟨[], []⟩ ⟨"1", "S", "Uppsala", 200⟩,
   claim6_sleep_policy.2.1 fetchFail [] "1" rfl,
   claim6_sleep_policy.2.2 fetchFail gNomNever
     ⟨[("1", some "Kungsgatan 10")], [("Kungsgatan 10|Uppsala", some (59, 17))]⟩
     ⟨"1", "Test School", "Uppsala", 280⟩ _ rfl⟩

theorem decodeAddrFields_encode (M : PyDict (Option String)) :
    decodeAddrFields (M.map (fun kv =>
      (kv.1, match kv.2 with
             | none => Json.null
             | some s => Json.str s))) = some M := by
  induction M with
  | nil => rfl
  | cons kv rest ih =>
    obtain ⟨k, v⟩ := kv
    cases v <;> simp [decodeAddrFields, ih]

theorem decodeCoordFields_encode (M : PyDict (Option (Rat × Rat))) :
    decodeCoordFields (M.map (fun kv =>
      (kv.1, match kv.2 with
             | none => Json.null
             | some p => Json.arr [Json.num p.1, Json.num p.2]))) = some M := by
  induction M with
  | nil => rfl
  | cons kv rest ih =>
    obtain ⟨k, v⟩ := kv
    cases v <;> simp [decodeCoordFields, ih]

/-- **C8.** Cache persistence round-trips exactly: for every flat mapping —
empty, with `null` entries, string values (address cache) or two-element
numeric arrays (coordinate cache) — saving writes the encoded document,
loading it back returns that document unchanged, and materializing it
reconstructs a mapping deep-equal to the original. -/
theorem claim8_cache_roundtrip :
    (∀ M : PyDict (Option String),
       load_address_cache (save_address_cache M) = .ok (encodeAddrCache M) ∧
       decodeAddrCache (encodeAddrCache M) = some M) ∧
    (∀ M : PyDict (Option (Rat × Rat)),
       load_coord_cache (save_coord_cache M) = .ok (encodeCoordCache M) ∧
       decodeCoordCache (encodeCoordCache M) = some M) :=
  ⟨fun M => ⟨rfl, decodeAddrFields_encode M⟩,
   fun M => ⟨rfl, decodeCoordFields_encode M⟩⟩

end Skolverket
